import Mathlib

/-!
Shallow embedding of `src/Rednote_downloader.py` (Flask backend for the
RedNote video downloader).  Python dictionaries holding task records are
modelled as a structure with `Option` fields for keys that are populated
only in certain phases; the process-wide `_tasks` dict is an association
list keyed by the task id string.  Byte counts and timestamps are `Nat`.
The external yt-dlp collaborator is modelled by explicit outcome values
(`ExtractOutcome`, `ExtractInfoResult`) passed to the handlers, and the
progress hook stream is a list of events applied in order.
-/

namespace Rednote

/-- One entry of the `_tasks` dict.  `status`, `progress`, `url`, `created`
are set at creation; the remaining keys appear only on terminal updates,
hence `Option`. -/
structure Task where
  status : String
  progress : Nat
  url : String
  created : Nat
  filename : Option String
  filepath : Option String
  title : Option String
  error : Option String
deriving DecidableEq, Repr

/-- The process-wide `_tasks` mapping, task id to record. -/
abbrev Store := List (String × Task)

/-- `_tasks.get(task_id)`: first binding for the key, if any. -/
def getTask : Store → String → Option Task
  | [], _ => none
  | (k, t) :: rest, id => if k = id then some t else getTask rest id

/-- In-place mutation of the record stored under `id` (a Python dict update
through the shared reference): replaces the first binding for `id`,
leaves the store unchanged when the key is absent. -/
def setTask : Store → String → Task → Store
  | [], _, _ => []
  | (k, t) :: rest, id, t' =>
    if k = id then (k, t') :: rest else (k, t) :: setTask rest id t'

/-- One progress-hook callback dict `d` as passed by yt-dlp to
`_update_progress`: a phase string plus optional byte counters. -/
structure ProgressEvent where
  status : String
  downloaded_bytes : Option Nat
  total_bytes : Option Nat
  total_bytes_estimate : Option Nat
deriving DecidableEq, Repr

/-- Python `x or y` on an optional number: `y` when `x` is `None` or `0`
(both falsy), otherwise `x`. -/
def pyOrNat (x : Option Nat) (y : Nat) : Nat :=
  match x with
  | some n => if n = 0 then y else n
  | none => y

/-- `d.get('downloaded_bytes') or 0`. -/
def resolvedDownloaded (d : ProgressEvent) : Nat := pyOrNat d.downloaded_bytes 0

/-- `d.get('total_bytes') or d.get('total_bytes_estimate') or 0`. -/
def resolvedTotal (d : ProgressEvent) : Nat :=
  pyOrNat d.total_bytes (pyOrNat d.total_bytes_estimate 0)

/-!
IEEE binary64 model for the percentage computation.  The source computes
`int(min(100, max(0, (downloaded / total) * 100)))` in Python floats:
one binary64 division, one binary64 multiplication, each rounded to
nearest, ties to even, then an exact comparison with 100 and truncation.
Both intermediate values are nonnegative and, for byte counts, far inside
the normal range of binary64 (no subnormals, no overflow), so rounding a
positive rational to a 53-bit significand models each operation exactly.
The model was checked against CPython's evaluation of the source
expression on an exhaustive small grid and on random 12-digit pairs.
-/

/-- Structurally recursive floor of the base-2 logarithm (the fuel is an
upper bound on the number of halvings, so `natLog2 n n` computes
`⌊log₂ n⌋` for `n ≥ 1`); written this way so that it reduces inside the
kernel. -/
def natLog2Aux : Nat → Nat → Nat
  | 0, _ => 0
  | fuel + 1, n => if n ≤ 1 then 0 else natLog2Aux fuel (n / 2) + 1

/-- `⌊log₂ n⌋` for `n ≥ 1`. -/
def natLog2 (n : Nat) : Nat := natLog2Aux n n

/-- Does `a / b` reach `2 ^ t` (for `a ≥ 1`, `b ≥ 1`)? -/
def ratGePow2 (a b : Nat) (t : Int) : Bool :=
  if 0 ≤ t then decide (b * 2 ^ t.toNat ≤ a) else decide (b ≤ a * 2 ^ (-t).toNat)

/-- The integer `t` with `2 ^ t ≤ a / b < 2 ^ (t + 1)` (for `a ≥ 1`,
`b ≥ 1`): the exponent of the leading binary digit of the quotient. -/
def ratLog2 (a b : Nat) : Int :=
  let t0 : Int := (natLog2 a : Int) - (natLog2 b : Int)
  if ratGePow2 a b t0 then t0 else t0 - 1

/-- Round the nonnegative rational `a / b` (with `b ≠ 0`) to the nearest
binary64 value, ties to even: scale the quotient so that its integer part
has 53 bits, round the scaled quotient to an integer significand, undo
the scaling.  Result is `(num, den)` with value `num / den` and `den` a
power of two. -/
def roundNE53 (a b : Nat) : Nat × Nat :=
  if a = 0 then (0, 1) else
  let t := ratLog2 a b
  let s : Int := 52 - t
  let scaled := if 0 ≤ s then (a * 2 ^ s.toNat, b) else (a, b * 2 ^ (-s).toNat)
  let n0 := scaled.1 / scaled.2
  let r := scaled.1 % scaled.2
  let n :=
    if scaled.2 < 2 * r then n0 + 1
    else if 2 * r < scaled.2 then n0
    else if n0 % 2 = 0 then n0 else n0 + 1
  if 52 ≤ t then (n * 2 ^ (t - 52).toNat, 1) else (n, 2 ^ (52 - t).toNat)

/-- `int(min(100, max(0, (downloaded / total) * 100)))` for `total ≠ 0`:
binary64 division, binary64 multiplication by 100, then (both values
being nonnegative, so `max(0, ...)` is the identity) an exact comparison
against 100 and truncation, which on the smaller branch is the floor of
the final float. -/
def pyPct (downloaded total : Nat) : Nat :=
  let x := roundNE53 downloaded total
  let y := roundNE53 (100 * x.1) x.2
  min 100 (y.1 / y.2)

/-- `_update_progress(task_id, d)`: look the task up (silently discard the
event when absent); on a `'downloading'` event set `progress` from the
byte counters when a nonzero total is available, otherwise rewrite the
already-recorded percentage unchanged; events with any other status fall
through without touching the store. -/
def _update_progress (tasks : Store) (task_id : String) (d : ProgressEvent) : Store :=
  match getTask tasks task_id with
  | none => tasks
  | some t =>
    if d.status = "downloading" then
      let downloaded := resolvedDownloaded d
      let total := resolvedTotal d
      if total ≠ 0 then
        setTask tasks task_id { t with progress := pyPct downloaded total }
      else
        setTask tasks task_id { t with progress := t.progress }
    else tasks

/-- The hook stream of one `extract_info(download=True)` call: the events
are applied to the task in the order the collaborator emits them. -/
def applyEvents (tasks : Store) (task_id : String) (evs : List ProgressEvent) : Store :=
  evs.foldl (fun s e => _update_progress s task_id e) tasks

/-- `os.path.basename`: the part after the last path separator. -/
def basename (p : String) : String := (p.splitOn "/").getLastD ""

/-- The fixed message recorded on the task when the background download
raises (line 59 of the source). -/
def downloadFailedMsg : String :=
  "Download failed on server — try again or use the local yt-dlp command"

/-- Outcome of the collaborator call made by `_download_background`:
either `extract_info`/`prepare_filename` succeed, yielding the prepared
file path and the extracted title (`None` when the info object is not a
dict), or some exception carrying a detail string is raised.  In both
cases the progress hooks already fired are recorded as an event list. -/
inductive ExtractOutcome where
  | success (evs : List ProgressEvent) (path : String) (title : Option String)
  | failure (evs : List ProgressEvent) (detail : String)
deriving DecidableEq, Repr

/-- The fields `t.update({...})` merges on success (lines 48-54 of the
source): terminal status, full progress, the prepared file's base name
and path, and the extracted title. -/
def completedRecord (t2 : Task) (path : String) (title : Option String) : Task :=
  { t2 with
    status := "completed"
    progress := 100
    filename := some (basename path)
    filepath := some path
    title := title }

/-- The fields `t.update({...})` merges on failure (lines 57-60 of the
source): terminal status and the fixed generic error message. -/
def failedRecord (t2 : Task) : Task :=
  { t2 with status := "failed", error := some downloadFailedMsg }

/-- `_download_background(task_id, url, ydl_opts)`: fetch the record
(the source indexes `_tasks[task_id]` directly; the task always exists
because the handler inserts it before spawning the worker, so the `none`
branches are unreachable in the program), mark it `'downloading'`, run
the collaborator applying its hook events in order, then atomically
record either the `completed` fields or the `failed` fields.  The
exception detail is only logged, never stored. -/
def _download_background (tasks : Store) (task_id : String) (outcome : ExtractOutcome) : Store :=
  match getTask tasks task_id with
  | none => tasks
  | some t =>
    let s1 := setTask tasks task_id { t with status := "downloading" }
    match outcome with
    | .success evs path title =>
      let s2 := applyEvents s1 task_id evs
      match getTask s2 task_id with
      | none => s2
      | some t2 => setTask s2 task_id (completedRecord t2 path title)
    | .failure evs _detail =>
      let s2 := applyEvents s1 task_id evs
      match getTask s2 task_id with
      | none => s2
      | some t2 => setTask s2 task_id (failedRecord t2)

/-- One candidate format dict as seen by `_choose_direct_url`: the three
ranking keys and the stream URL, each possibly absent. -/
structure FormatInfo where
  height : Option Nat
  tbr : Option Nat
  filesize : Option Nat
  url : Option String
deriving DecidableEq, Repr

/-- The media descriptor returned by `extract_info(download=False)` when
it is a dict; `_choose_direct_url` receives `Option MediaInfo`, with
`none` standing for a non-dict result. -/
structure MediaInfo where
  is_live : Bool
  requested_formats : Option (List FormatInfo)
  formats : Option (List FormatInfo)
  url : Option String
  title : Option String
deriving DecidableEq, Repr

/-- Python `x or y` on an optional list: `y` when `x` is `None` or the
empty list (both falsy), otherwise `x`. -/
def pyOrFormats (x : Option (List FormatInfo)) (y : List FormatInfo) : List FormatInfo :=
  match x with
  | some l => if l.isEmpty then y else l
  | none => y

/-- `info.get('requested_formats') or info.get('formats') or []`. -/
def resolvedFormats (i : MediaInfo) : List FormatInfo :=
  pyOrFormats i.requested_formats (pyOrFormats i.formats [])

/-- The ranking key `(x.get('height') or 0, x.get('tbr') or 0,
x.get('filesize') or 0)` of the `max` call. -/
def fmtKey (f : FormatInfo) : Nat × Nat × Nat :=
  (pyOrNat f.height 0, pyOrNat f.tbr 0, pyOrNat f.filesize 0)

/-- Lexicographic strict order on the ranking triples, the order Python
uses to compare the tuples produced by the `key` function. -/
def keyLt (a b : Nat × Nat × Nat) : Prop :=
  a.1 < b.1 ∨ (a.1 = b.1 ∧ (a.2.1 < b.2.1 ∨ (a.2.1 = b.2.1 ∧ a.2.2 < b.2.2)))

instance (a b : Nat × Nat × Nat) : Decidable (keyLt a b) := by
  unfold keyLt; exact inferInstance

/-- Python `max(f :: fs, key=fmtKey)`: left fold keeping the current
maximum, replacing it only on a strictly greater key, so the first
maximal element wins ties. -/
def fmtMax (f : FormatInfo) (fs : List FormatInfo) : FormatInfo :=
  fs.foldl (fun best x => if keyLt (fmtKey best) (fmtKey x) then x else best) f

/-- `_choose_direct_url(info)`: `None` unless the info is a dict; `None`
when the descriptor is marked live; otherwise the URL of the format
maximising `(height, tbr, filesize)` over the resolved candidate list,
falling back to the descriptor's own `url` key when that list is empty. -/
def _choose_direct_url (info : Option MediaInfo) : Option String :=
  match info with
  | none => none
  | some i =>
    if i.is_live then none
    else
      match resolvedFormats i with
      | [] => i.url
      | f :: fs => (fmtMax f fs).url

/-- Result of `_extract_info_with_timeout(url, opts)`: the join timed
out, or the worker stored an exception (with its detail), or it stored
the info object (`none` for a non-dict / `None` result). -/
inductive ExtractInfoResult where
  | timeout
  | raised (detail : String)
  | got (info : Option MediaInfo)
deriving DecidableEq, Repr

/-- The JSON body of the `POST /api/v2/download` request: both keys
optional (`request.get_json() or {}` followed by `.get`). -/
structure JobRequest where
  url : Option String
  mode : Option String
deriving DecidableEq, Repr

/-- The responses `api_start_download` can produce, one constructor per
`return` statement of the handler. -/
inductive JobsResponse where
  | urlRequired
  | invalidUrl
  | timedOut
  | extractionFailed
  | directUrl (u : String)
  | noStream
  | taskCreated (task_id : String)
deriving DecidableEq, Repr

/-- HTTP status code of each `api_start_download` response. -/
def JobsResponse.code : JobsResponse → Nat
  | .urlRequired => 400
  | .invalidUrl => 400
  | .timedOut => 504
  | .extractionFailed => 502
  | .directUrl _ => 200
  | .noStream => 422
  | .taskCreated _ => 200

/-- The `error` field of each `api_start_download` response body. -/
def JobsResponse.errorMsg : JobsResponse → Option String
  | .urlRequired => some "url is required"
  | .invalidUrl => some "invalid rednote url"
  | .timedOut => some "preparation timed out"
  | .extractionFailed =>
      some "could not prepare browser download — try again or use the local command"
  | .directUrl _ => none
  | .noStream => some "no direct downloadable stream found"
  | .taskCreated _ => none

/-- `'xiaohongshu.com' in url or 'xhslink.com' in url`: Python `in` on
strings is substring containment, modelled as list infixes over the
character lists. -/
def validSourceUrl (url : String) : Bool :=
  decide ("xiaohongshu.com".toList <:+: url.toList) ||
    decide ("xhslink.com".toList <:+: url.toList)

/-- `str(DOWNLOAD_FOLDER / f"{task_id}_%(title)s.%(ext)s")`: the per-task
output template handed to yt-dlp, embedding the task id. -/
def outTemplate (task_id : String) : String :=
  "downloads_v2/" ++ task_id ++ "_%(title)s.%(ext)s"

/-- The `threading.Thread(target=_download_background, ...)` spawn the
async path performs: the worker's arguments.  File writes happen only
inside such a worker (the direct path calls `extract_info` with
`download=False`), so a `none` spawn means no file is written. -/
structure WorkerSpawn where
  task_id : String
  url : String
  outtmpl : String
deriving DecidableEq, Repr

/-- `api_start_download()` (`POST /api/v2/download`).  Inputs beyond the
request body: the outcome the bounded extraction would produce if the
direct branch consults it, the fresh id `str(uuid.uuid4())` would
return, and the clock value `time.time()`.  Output: the response, the
resulting `_tasks` store, and the worker spawn if any. -/
def api_start_download (tasks : Store) (req : JobRequest)
    (extract : ExtractInfoResult) (newId : String) (now : Nat) :
    JobsResponse × Store × Option WorkerSpawn :=
  match req.url with
  | none => (.urlRequired, tasks, none)
  | some url =>
    if url = "" then (.urlRequired, tasks, none)
    else if validSourceUrl url = false then (.invalidUrl, tasks, none)
    else if req.mode = some "direct" then
      match extract with
      | .timeout => (.timedOut, tasks, none)
      | .raised _ => (.extractionFailed, tasks, none)
      | .got info =>
        match _choose_direct_url info with
        | some u => if u = "" then (.noStream, tasks, none) else (.directUrl u, tasks, none)
        | none => (.noStream, tasks, none)
    else
      let task : Task :=
        { status := "queued", progress := 0, url := url, created := now,
          filename := none, filepath := none, title := none, error := none }
      (.taskCreated newId, (newId, task) :: tasks, some ⟨newId, url, outTemplate newId⟩)

/-- The fixed message `api_status` adds for failed tasks (line 150). -/
def statusFailedMsg : String :=
  "Download failed on server — check server logs or try the local command"

/-- The JSON body `api_status` returns for a known task. -/
structure StatusBody where
  status : String
  progress : Nat
  filename : Option String
  title : Option String
  error : Option String
deriving DecidableEq, Repr

/-- Response of `GET /api/v2/status/<task_id>`. -/
inductive StatusResponse where
  | notFound
  | ok (body : StatusBody)
deriving DecidableEq, Repr

/-- HTTP status code of each `api_status` response. -/
def StatusResponse.code : StatusResponse → Nat
  | .notFound => 404
  | .ok _ => 200

/-- `api_status(task_id)`: 404 for an unknown id, otherwise the record's
status, progress, filename and title, plus a fixed generic error string
exactly when the status is `'failed'`. -/
def api_status (tasks : Store) (task_id : String) : StatusResponse :=
  match getTask tasks task_id with
  | none => .notFound
  | some t =>
    .ok ⟨t.status, t.progress, t.filename, t.title,
      if t.status = "failed" then some statusFailedMsg else none⟩

/-- Response of `GET /api/v2/download-file/<task_id>`, one constructor
per `return` statement. -/
inductive FileResponse where
  | notFound
  | notCompleted
  | fileMissing
  | sendFile (filepath : String) (downloadName : Option String)
deriving DecidableEq, Repr

/-- HTTP status code of each `api_download_file` response. -/
def FileResponse.code : FileResponse → Nat
  | .notFound => 404
  | .notCompleted => 400
  | .fileMissing => 404
  | .sendFile _ _ => 200

/-- `api_download_file(task_id)`: 404 for an unknown id; 400 unless the
status is `'completed'`; 404 when the stored filepath is absent or empty
(`if not filepath`) or `os.path.exists` (modelled by the predicate `fs`)
denies it; otherwise `send_file` with the stored filename as attachment
name. -/
def api_download_file (tasks : Store) (fs : String → Bool) (task_id : String) : FileResponse :=
  match getTask tasks task_id with
  | none => .notFound
  | some t =>
    if t.status ≠ "completed" then .notCompleted
    else
      match t.filepath with
      | none => .fileMissing
      | some p =>
        if p = "" then .fileMissing
        else if fs p then .sendFile p t.filename
        else .fileMissing

/-! ### Store lemmas -/

/-- Writing a record under a key that is present makes that record the
one subsequently read. -/
theorem getTask_setTask (s : Store) (id : String) (t t' : Task)
    (h : getTask s id = some t) : getTask (setTask s id t') id = some t' := by
  induction s with
  | nil => simp [getTask] at h
  | cons p rest ih =>
    obtain ⟨k, u⟩ := p
    by_cases hk : k = id
    · subst hk
      simp [getTask, setTask]
    · simp [getTask, setTask, hk] at h ⊢
      exact ih h

/-- Writing back the record already stored under a key is a no-op. -/
theorem setTask_self (s : Store) (id : String) (t : Task)
    (h : getTask s id = some t) : setTask s id t = s := by
  induction s with
  | nil => simp [getTask] at h
  | cons p rest ih =>
    obtain ⟨k, u⟩ := p
    by_cases hk : k = id
    · subst hk
      simp [getTask] at h
      simp [setTask, h]
    · simp [getTask, hk] at h
      simp [setTask, hk, ih h]

/-- A progress event for an id that is not in the store is discarded. -/
theorem update_progress_missing (s : Store) (id : String) (ev : ProgressEvent)
    (h : getTask s id = none) : _update_progress s id ev = s := by
  unfold _update_progress
  rw [h]

/-- A progress event whose status is not `'downloading'` falls through
without touching the store. -/
theorem update_progress_other_status (s : Store) (id : String) (ev : ProgressEvent)
    (h : ev.status ≠ "downloading") : _update_progress s id ev = s := by
  unfold _update_progress
  cases hg : getTask s id with
  | none => rfl
  | some t => simp [h]

/-- A `'downloading'` event without a usable nonzero total rewrites the
stored percentage with itself: the store is unchanged. -/
theorem update_progress_total_zero (s : Store) (id : String) (ev : ProgressEvent)
    (h : resolvedTotal ev = 0) : _update_progress s id ev = s := by
  unfold _update_progress
  cases hg : getTask s id with
  | none => rfl
  | some t =>
    by_cases hs : ev.status = "downloading"
    · simp [hs, h, setTask_self s id t hg]
    · simp [hs]

/-- A `'downloading'` event with a nonzero total overwrites the stored
percentage with the freshly computed one. -/
theorem update_progress_downloading (s : Store) (id : String) (ev : ProgressEvent) (t : Task)
    (hg : getTask s id = some t) (hs : ev.status = "downloading")
    (ht : resolvedTotal ev ≠ 0) :
    _update_progress s id ev =
      setTask s id { t with progress := pyPct (resolvedDownloaded ev) (resolvedTotal ev) } := by
  unfold _update_progress
  rw [hg]
  simp [hs, ht]

/-- `_update_progress` never removes a task. -/
theorem update_progress_isSome (s : Store) (id : String) (ev : ProgressEvent)
    (h : (getTask s id).isSome) : (getTask (_update_progress s id ev) id).isSome := by
  obtain ⟨t, hg⟩ := Option.isSome_iff_exists.mp h
  by_cases hs : ev.status = "downloading"
  · by_cases ht : resolvedTotal ev = 0
    · rw [update_progress_total_zero s id ev ht]
      exact h
    · rw [update_progress_downloading s id ev t hg hs ht]
      rw [getTask_setTask s id t _ hg]
      rfl
  · rw [update_progress_other_status s id ev hs]
    exact h

/-- A whole hook stream never removes a task. -/
theorem applyEvents_isSome (evs : List ProgressEvent) (s : Store) (id : String)
    (h : (getTask s id).isSome) : (getTask (applyEvents s id evs) id).isSome := by
  induction evs generalizing s with
  | nil => exact h
  | cons e rest ih =>
    have h1 := update_progress_isSome s id e h
    simpa [applyEvents] using ih (_update_progress s id e) h1

/-! ### The lexicographic ranking order -/

theorem keyLt_irrefl (a : Nat × Nat × Nat) : ¬ keyLt a a := by
  unfold keyLt; omega

theorem keyLt_asymm {a b : Nat × Nat × Nat} (h : keyLt a b) : ¬ keyLt b a := by
  unfold keyLt at *; omega

theorem keyLt_neg_trans {a b c : Nat × Nat × Nat} (h1 : ¬ keyLt a b) (h2 : ¬ keyLt b c) :
    ¬ keyLt a c := by
  unfold keyLt at *; omega

/-- `fmtMax f fs` is an element of `f :: fs` and no element of `f :: fs`
has a strictly greater ranking key. -/
theorem fmtMax_spec (fs : List FormatInfo) (f : FormatInfo) :
    fmtMax f fs ∈ f :: fs ∧ ∀ g ∈ f :: fs, ¬ keyLt (fmtKey (fmtMax f fs)) (fmtKey g) := by
  induction fs generalizing f with
  | nil =>
    refine ⟨by simp [fmtMax], ?_⟩
    intro g hg
    have hgf : g = f := by simpa using hg
    subst hgf
    simpa [fmtMax] using keyLt_irrefl (fmtKey g)
  | cons x rest ih =>
    by_cases hxy : keyLt (fmtKey f) (fmtKey x)
    · have hstep : fmtMax f (x :: rest) = fmtMax x rest := by
        simp [fmtMax, hxy]
      obtain ⟨hmem, hmax⟩ := ih x
      rw [hstep]
      refine ⟨List.mem_cons_of_mem f hmem, ?_⟩
      intro g hg
      rcases List.mem_cons.mp hg with rfl | hg2
      · exact keyLt_neg_trans (hmax x (List.mem_cons_self x rest)) (keyLt_asymm hxy)
      · rcases List.mem_cons.mp hg2 with rfl | hg3
        · exact hmax g (List.mem_cons_self g rest)
        · exact hmax g (List.mem_cons_of_mem x hg3)
    · have hstep : fmtMax f (x :: rest) = fmtMax f rest := by
        simp [fmtMax, hxy]
      obtain ⟨hmem, hmax⟩ := ih f
      rw [hstep]
      constructor
      · rcases List.mem_cons.mp hmem with h | h
        · rw [h]; exact List.mem_cons_self f (x :: rest)
        · exact List.mem_cons_of_mem f (List.mem_cons_of_mem x h)
      · intro g hg
        rcases List.mem_cons.mp hg with rfl | hg2
        · exact hmax g (List.mem_cons_self g rest)
        · rcases List.mem_cons.mp hg2 with rfl | hg3
          · exact keyLt_neg_trans (hmax f (List.mem_cons_self f rest)) hxy
          · exact hmax g (List.mem_cons_of_mem f hg3)

/-! ### Claims -/

/-- C3 (counterexample): the claim quantifies over every descriptor with
a non-empty candidate format set, but on a live descriptor
`_choose_direct_url` returns `None` instead of the url of the ranking
maximum (here the unique candidate, whose url is `"u720"`). -/
theorem C3_live_formats_counterexample :
    _choose_direct_url (some ⟨true, some [⟨some 720, some 300, some 2000, some "u720"⟩],
        none, some "top", none⟩) = none ∧
    fmtMax ⟨some 720, some 300, some 2000, some "u720"⟩ [] =
      ⟨some 720, some 300, some 2000, some "u720"⟩ ∧
    (none : Option String) ≠ some "u720" := by
  decide

/-- C3 (amended): for every NON-LIVE descriptor, when the resolved
candidate list is non-empty the resolver returns the url of a candidate
whose `(height, tbr, filesize)` key (missing fields read as 0) is
lexicographically maximal, and when the resolved candidate list is empty
it falls back to the descriptor's top-level url field. -/
theorem C3_best_format_amended (i : MediaInfo) (h : i.is_live = false) :
    (∀ f fs, resolvedFormats i = f :: fs →
      _choose_direct_url (some i) = (fmtMax f fs).url ∧
      fmtMax f fs ∈ f :: fs ∧
      ∀ g ∈ f :: fs, ¬ keyLt (fmtKey (fmtMax f fs)) (fmtKey g)) ∧
    (resolvedFormats i = [] → _choose_direct_url (some i) = i.url) := by
  constructor
  · intro f fs hf
    obtain ⟨hmem, hmax⟩ := fmtMax_spec fs f
    refine ⟨?_, hmem, hmax⟩
    simp [_choose_direct_url, h, hf]
  · intro hf
    simp [_choose_direct_url, h, hf]

/-- C3 (witness): the spec's concrete example, with formats
`[{height:480, tbr:500, filesize:1000}, {height:720, tbr:300,
filesize:2000}]`, resolves to the height-720 entry's url. -/
theorem C3_best_format_amended_witness :
    _choose_direct_url (some ⟨false,
      some [⟨some 480, some 500, some 1000, some "u480"⟩,
            ⟨some 720, some 300, some 2000, some "u720"⟩], none, none, none⟩) =
      some "u720" := by
  have h := (C3_best_format_amended ⟨false,
      some [⟨some 480, some 500, some 1000, some "u480"⟩,
            ⟨some 720, some 300, some 2000, some "u720"⟩], none, none, none⟩ rfl).1
      ⟨some 480, some 500, some 1000, some "u480"⟩
      [⟨some 720, some 300, some 2000, some "u720"⟩] (by decide)
  rw [h.1]
  decide

/-- C1 (counterexample): after a progress event with nonzero
`total_bytes` has been applied (progress 50), a later applied event with
a smaller byte ratio lowers progress to 10: recorded progress is not
monotone once a total has been observed. -/
theorem C1_progress_decrease_counterexample :
    (getTask (_update_progress [("t", ⟨"queued", 0, "u", 0, none, none, none, none⟩)] "t"
        ⟨"downloading", some 50, some 100, none⟩) "t").map Task.progress = some 50 ∧
    (getTask (_update_progress
        (_update_progress [("t", ⟨"queued", 0, "u", 0, none, none, none, none⟩)] "t"
          ⟨"downloading", some 50, some 100, none⟩) "t"
        ⟨"downloading", some 10, some 100, none⟩) "t").map Task.progress = some 10 ∧
    10 < 50 := by
  decide

/-- C1 (amended): progress is NOT monotone across `'downloading'` events
(each event overwrites it with its own byte ratio); what does hold is
that an applied event lacking a nonzero total, or carrying any other
status, leaves the store unchanged, and that a successful worker records
progress 100 together with status `completed`. -/
theorem C1_progress_amended (s : Store) (id : String) (ev : ProgressEvent)
    (evs : List ProgressEvent) (path : String) (title : Option String) :
    (resolvedTotal ev = 0 ∨ ev.status ≠ "downloading" → _update_progress s id ev = s) ∧
    ((getTask s id).isSome →
      ∃ t', getTask (_download_background s id (.success evs path title)) id = some t' ∧
        t'.status = "completed" ∧ t'.progress = 100) := by
  constructor
  · rintro (h | h)
    · exact update_progress_total_zero s id ev h
    · exact update_progress_other_status s id ev h
  · intro h
    obtain ⟨t, hg⟩ := Option.isSome_iff_exists.mp h
    have h1 : (getTask (setTask s id { t with status := "downloading" }) id).isSome := by
      rw [getTask_setTask s id t _ hg]; rfl
    have h2 := applyEvents_isSome evs _ id h1
    obtain ⟨t2, ht2⟩ := Option.isSome_iff_exists.mp h2
    have hfinal : _download_background s id (.success evs path title) =
        setTask (applyEvents (setTask s id { t with status := "downloading" }) id evs) id
          (completedRecord t2 path title) := by
      unfold _download_background
      simp only [hg, ht2]
    refine ⟨completedRecord t2 path title, ?_, rfl, rfl⟩
    rw [hfinal]
    exact getTask_setTask _ id t2 _ ht2

/-- C1 (witness): a zero-total event leaves the store unchanged, and
a successful worker run ends with status `completed` and progress 100. -/
theorem C1_progress_amended_witness :
    (_update_progress [("t", ⟨"queued", 7, "u", 0, none, none, none, none⟩)] "t"
        ⟨"downloading", some 5, none, none⟩ =
      [("t", ⟨"queued", 7, "u", 0, none, none, none, none⟩)]) ∧
    (∃ t', getTask (_download_background [("t", ⟨"queued", 7, "u", 0, none, none, none, none⟩)]
        "t" (.success [] "downloads_v2/t_a.mp4" (some "a"))) "t" = some t' ∧
      t'.status = "completed" ∧ t'.progress = 100) := by
  have h := C1_progress_amended [("t", ⟨"queued", 7, "u", 0, none, none, none, none⟩)] "t"
    ⟨"downloading", some 5, none, none⟩ [] "downloads_v2/t_a.mp4" (some "a")
  exact ⟨h.1 (Or.inl (by decide)), h.2 (by decide)⟩

/-- C2 (counterexample): a well-formed but non-allow-listed url is
rejected with status 400, but the body's error message is
`"invalid rednote url"`, not the `"invalid source url"` the claim
states. -/
theorem C2_invalid_message_counterexample :
    (api_start_download [] ⟨some "http://example.com/v", none⟩ .timeout "id0" 0).1 =
      .invalidUrl ∧
    JobsResponse.code .invalidUrl = 400 ∧
    JobsResponse.errorMsg .invalidUrl = some "invalid rednote url" ∧
    JobsResponse.errorMsg .invalidUrl ≠ some "invalid source url" := by
  decide

/-- C2 (amended): a missing or empty url yields 400
`{error: "url is required"}`; a nonempty url failing the allow-list
yields 400 `{error: "invalid rednote url"}`; in both cases the store is
returned untouched, no worker is spawned, and the result is the same for
every extraction outcome (the extraction is never consulted). -/
theorem C2_validation_amended (s : Store) (req : JobRequest) (extract : ExtractInfoResult)
    (newId : String) (now : Nat) :
    ((req.url = none ∨ req.url = some "") →
      api_start_download s req extract newId now = (.urlRequired, s, none)) ∧
    (∀ url, req.url = some url → url ≠ "" → validSourceUrl url = false →
      api_start_download s req extract newId now = (.invalidUrl, s, none)) ∧
    JobsResponse.code .urlRequired = 400 ∧
    JobsResponse.errorMsg .urlRequired = some "url is required" ∧
    JobsResponse.code .invalidUrl = 400 ∧
    JobsResponse.errorMsg .invalidUrl = some "invalid rednote url" := by
  refine ⟨?_, ?_, rfl, rfl, rfl, rfl⟩
  · rintro (h | h) <;> simp [api_start_download, h]
  · intro url hu hne hval
    simp [api_start_download, hu, hne, hval]

/-- C2 (witness): the two rejection branches on concrete requests. -/
theorem C2_validation_amended_witness :
    api_start_download [] ⟨none, none⟩ .timeout "id0" 0 = (.urlRequired, [], none) ∧
    api_start_download [] ⟨some "https://vimeo.com/1", none⟩ .timeout "id0" 0 =
      (.invalidUrl, [], none) := by
  exact ⟨(C2_validation_amended [] ⟨none, none⟩ .timeout "id0" 0).1 (Or.inl rfl),
    (C2_validation_amended [] ⟨some "https://vimeo.com/1", none⟩ .timeout "id0" 0).2.1
      "https://vimeo.com/1" rfl (by decide) (by decide)⟩

/-- C4 (counterexample): the percentage is computed in binary64 floats,
so at `downloaded_bytes = 29, total_bytes = 100` the applied event
records progress 28, while `clamp(0, 100, floor(29 / 100 * 100))` of the
claim is 29. -/
theorem C4_float_floor_counterexample :
    pyPct 29 100 = 28 ∧
    min 100 (Nat.max 0 (29 * 100 / 100)) = 29 ∧
    (getTask (_update_progress [("t", ⟨"queued", 0, "u", 0, none, none, none, none⟩)] "t"
        ⟨"downloading", some 29, some 100, none⟩) "t").map Task.progress = some 28 ∧
    (28 : Nat) ≠ 29 := by
  decide

/-- C4 (amended): an event for an unknown task id is discarded with no
state change; an event with a status other than `'downloading'` leaves
the store unchanged; a `'downloading'` event without a nonzero total
(from `total_bytes` falling back to `total_bytes_estimate`) leaves the
recorded percentage unchanged; and a `'downloading'` event with a
nonzero total sets progress to the clamped truncation of
`(downloaded / total) * 100` as evaluated in binary64 floating point
(which can be one below the exact floor). -/
theorem C4_update_progress_amended (s : Store) (id : String) (ev : ProgressEvent) :
    (getTask s id = none → _update_progress s id ev = s) ∧
    (ev.status ≠ "downloading" → _update_progress s id ev = s) ∧
    (ev.status = "downloading" → resolvedTotal ev = 0 → _update_progress s id ev = s) ∧
    (∀ t, getTask s id = some t → ev.status = "downloading" → resolvedTotal ev ≠ 0 →
      getTask (_update_progress s id ev) id =
        some { t with progress := pyPct (resolvedDownloaded ev) (resolvedTotal ev) }) := by
  refine ⟨update_progress_missing s id ev, update_progress_other_status s id ev,
    fun _ h => update_progress_total_zero s id ev h, ?_⟩
  intro t hg hs ht
  rw [update_progress_downloading s id ev t hg hs ht]
  exact getTask_setTask s id t _ hg

/-- C4 (witness): the four behaviours on concrete stores and events;
`pyPct 50 200 = 25`. -/
theorem C4_update_progress_amended_witness :
    (_update_progress [] "t" ⟨"downloading", some 5, some 10, none⟩ = []) ∧
    (_update_progress [("t", ⟨"queued", 3, "u", 0, none, none, none, none⟩)] "t"
        ⟨"finished", some 5, some 10, none⟩ =
      [("t", ⟨"queued", 3, "u", 0, none, none, none, none⟩)]) ∧
    (_update_progress [("t", ⟨"queued", 3, "u", 0, none, none, none, none⟩)] "t"
        ⟨"downloading", some 5, none, none⟩ =
      [("t", ⟨"queued", 3, "u", 0, none, none, none, none⟩)]) ∧
    getTask (_update_progress [("t", ⟨"queued", 3, "u", 0, none, none, none, none⟩)] "t"
        ⟨"downloading", some 50, some 200, none⟩) "t" =
      some ⟨"queued", 25, "u", 0, none, none, none, none⟩ := by
  refine ⟨(C4_update_progress_amended [] "t" _).1 rfl,
    (C4_update_progress_amended _ "t" _).2.1 (by decide),
    (C4_update_progress_amended _ "t" _).2.2.1 rfl (by decide), ?_⟩
  have h := (C4_update_progress_amended
    [("t", ⟨"queued", 3, "u", 0, none, none, none, none⟩)] "t"
    ⟨"downloading", some 50, some 200, none⟩).2.2.2
    ⟨"queued", 3, "u", 0, none, none, none, none⟩ (by decide) rfl (by decide)
  rw [h]
  decide

/-- C5: for every descriptor whose `is_live` flag is set, the chooser
returns no URL regardless of the format list, so a direct-mode request
carrying it gets the 422 no-stream failure (the code's NotApplicable /
NoStreamFound category) and never a direct URL. -/
theorem C5_live_not_applicable (s : Store) (url : String) (i : MediaInfo)
    (newId : String) (now : Nat) (hu : url ≠ "") (hv : validSourceUrl url = true)
    (hl : i.is_live = true) :
    _choose_direct_url (some i) = none ∧
    api_start_download s ⟨some url, some "direct"⟩ (.got (some i)) newId now =
      (.noStream, s, none) ∧
    JobsResponse.code .noStream = 422 ∧
    JobsResponse.errorMsg .noStream = some "no direct downloadable stream found" ∧
    ∀ u, JobsResponse.noStream ≠ JobsResponse.directUrl u := by
  have hc : _choose_direct_url (some i) = none := by
    simp [_choose_direct_url, hl]
  refine ⟨hc, ?_, rfl, rfl, fun u => by simp⟩
  simp [api_start_download, hu, hv, hc]

/-- C5 (witness): a live descriptor with a rich format list on a valid
direct-mode request yields the no-stream failure. -/
theorem C5_live_not_applicable_witness :
    _choose_direct_url (some ⟨true, some [⟨some 1080, some 900, some 5000, some "lv"⟩],
      none, none, none⟩) = none ∧
    api_start_download [] ⟨some "https://www.xiaohongshu.com/explore/1", some "direct"⟩
      (.got (some ⟨true, some [⟨some 1080, some 900, some 5000, some "lv"⟩], none, none, none⟩))
      "id1" 5 = (.noStream, [], none) := by
  have h := C5_live_not_applicable [] "https://www.xiaohongshu.com/explore/1"
    ⟨true, some [⟨some 1080, some 900, some 5000, some "lv"⟩], none, none, none⟩
    "id1" 5 (by decide) (by decide) rfl
  exact ⟨h.1, h.2.1⟩

/-- C6: when the collaborator raises, the worker records
`status = failed` with the fixed generic message; the result store does
not depend on the exception detail, and the status endpoint returns a
fixed generic error string for the failed task. -/
theorem C6_failure_generic_error (s : Store) (id : String) (t : Task)
    (evs : List ProgressEvent) (d1 d2 : String) (hg : getTask s id = some t) :
    _download_background s id (.failure evs d1) = _download_background s id (.failure evs d2) ∧
    (∃ t', getTask (_download_background s id (.failure evs d1)) id = some t' ∧
      t'.status = "failed" ∧ t'.error = some downloadFailedMsg) ∧
    (∃ b, api_status (_download_background s id (.failure evs d1)) id = .ok b ∧
      b.status = "failed" ∧ b.error = some statusFailedMsg) := by
  have h1 : (getTask (setTask s id { t with status := "downloading" }) id).isSome := by
    rw [getTask_setTask s id t _ hg]; rfl
  have h2 := applyEvents_isSome evs _ id h1
  obtain ⟨t2, ht2⟩ := Option.isSome_iff_exists.mp h2
  have hfinal : ∀ d : String, _download_background s id (.failure evs d) =
      setTask (applyEvents (setTask s id { t with status := "downloading" }) id evs) id
        (failedRecord t2) := by
    intro d
    unfold _download_background
    simp only [hg, ht2]
  have hget : getTask (_download_background s id (.failure evs d1)) id =
      some (failedRecord t2) := by
    rw [hfinal d1]
    exact getTask_setTask _ id t2 _ ht2
  refine ⟨by rw [hfinal d1, hfinal d2], ⟨failedRecord t2, hget, rfl, rfl⟩, ?_⟩
  refine ⟨⟨"failed", (failedRecord t2).progress, (failedRecord t2).filename,
    (failedRecord t2).title, some statusFailedMsg⟩, ?_, rfl, rfl⟩
  simp [api_status, hget, failedRecord]

/-- C6 (witness): two different exception details produce the same
store; the record and the status body carry only the fixed messages. -/
theorem C6_failure_generic_error_witness :
    (_download_background [("t", ⟨"queued", 0, "u", 0, none, none, none, none⟩)] "t"
        (.failure [] "DownloadError: /srv/secret/path") =
      _download_background [("t", ⟨"queued", 0, "u", 0, none, none, none, none⟩)] "t"
        (.failure [] "other detail")) ∧
    (∃ t', getTask (_download_background [("t", ⟨"queued", 0, "u", 0, none, none, none, none⟩)]
        "t" (.failure [] "DownloadError: /srv/secret/path")) "t" = some t' ∧
      t'.status = "failed" ∧ t'.error = some downloadFailedMsg) ∧
    (∃ b, api_status (_download_background [("t", ⟨"queued", 0, "u", 0, none, none, none, none⟩)]
        "t" (.failure [] "DownloadError: /srv/secret/path")) "t" = .ok b ∧
      b.status = "failed" ∧ b.error = some statusFailedMsg) := by
  exact C6_failure_generic_error [("t", ⟨"queued", 0, "u", 0, none, none, none, none⟩)] "t"
    ⟨"queued", 0, "u", 0, none, none, none, none⟩ [] "DownloadError: /srv/secret/path"
    "other detail" (by decide)

/-- C7: the file endpoint returns 404 for an unknown id; 400 (and never
the file) when the task is not completed; 404 when the task is completed
but the stored path is absent, empty, or denied by the filesystem; and
the stored file under the stored filename otherwise. -/
theorem C7_file_endpoint (s : Store) (fs : String → Bool) (id : String) :
    (getTask s id = none →
      api_download_file s fs id = .notFound ∧ FileResponse.code .notFound = 404) ∧
    (∀ t, getTask s id = some t → t.status ≠ "completed" →
      api_download_file s fs id = .notCompleted ∧ FileResponse.code .notCompleted = 400 ∧
      ∀ p n, api_download_file s fs id ≠ .sendFile p n) ∧
    (∀ t, getTask s id = some t → t.status = "completed" →
      (t.filepath = none ∨ t.filepath = some "" ∨ ∃ p, t.filepath = some p ∧ fs p = false) →
      api_download_file s fs id = .fileMissing ∧ FileResponse.code .fileMissing = 404) ∧
    (∀ t p, getTask s id = some t → t.status = "completed" → t.filepath = some p → p ≠ "" →
      fs p = true → api_download_file s fs id = .sendFile p t.filename) := by
  refine ⟨?_, ?_, ?_, ?_⟩
  · intro h
    exact ⟨by simp [api_download_file, h], rfl⟩
  · intro t ht hst
    have h : api_download_file s fs id = .notCompleted := by
      simp [api_download_file, ht, hst]
    exact ⟨h, rfl, fun p n => by rw [h]; simp⟩
  · intro t ht hst hdisj
    refine ⟨?_, rfl⟩
    rcases hdisj with h | h | ⟨p, hp, hfs⟩
    · simp [api_download_file, ht, hst, h]
    · simp [api_download_file, ht, hst, h]
    · by_cases hpe : p = ""
      · subst hpe
        simp [api_download_file, ht, hst, hp]
      · simp [api_download_file, ht, hst, hp, hpe, hfs]
  · intro t p ht hst hp hpe hfs
    simp [api_download_file, ht, hst, hp, hpe, hfs]

/-- C7 (witness): the four branches on concrete stores. -/
theorem C7_file_endpoint_witness :
    api_download_file [] (fun _ => true) "x" = .notFound ∧
    api_download_file [("q", ⟨"queued", 0, "u", 0, none, none, none, none⟩)]
      (fun _ => true) "q" = .notCompleted ∧
    api_download_file [("m", ⟨"completed", 100, "u", 0, some "a.mp4",
      some "downloads_v2/m_a.mp4", none, none⟩)] (fun _ => false) "m" = .fileMissing ∧
    api_download_file [("c", ⟨"completed", 100, "u", 0, some "a.mp4",
      some "downloads_v2/c_a.mp4", none, none⟩)]
      (fun p => p == "downloads_v2/c_a.mp4") "c" =
      .sendFile "downloads_v2/c_a.mp4" (some "a.mp4") := by
  refine ⟨((C7_file_endpoint [] (fun _ => true) "x").1 rfl).1, ?_, ?_, ?_⟩
  · exact ((C7_file_endpoint _ (fun _ => true) "q").2.1
      ⟨"queued", 0, "u", 0, none, none, none, none⟩ (by decide) (by decide)).1
  · exact ((C7_file_endpoint _ (fun _ => false) "m").2.2.1
      ⟨"completed", 100, "u", 0, some "a.mp4", some "downloads_v2/m_a.mp4", none, none⟩
      (by decide) rfl (Or.inr (Or.inr ⟨"downloads_v2/m_a.mp4", rfl, rfl⟩))).1
  · exact (C7_file_endpoint _ (fun p => p == "downloads_v2/c_a.mp4") "c").2.2.2
      ⟨"completed", 100, "u", 0, some "a.mp4", some "downloads_v2/c_a.mp4", none, none⟩
      "downloads_v2/c_a.mp4" (by decide) rfl rfl (by decide) (by decide)

/-- C8: a direct-mode request never changes the task store, never spawns
a worker (so writes no file: the direct branch runs `extract_info` with
`download=False`), never creates a task; when the url passes validation
the response is exactly one of timeout, extraction failure, no-stream
failure, or a direct URL. -/
theorem C8_direct_mode_frame (s : Store) (req : JobRequest) (extract : ExtractInfoResult)
    (newId : String) (now : Nat) (hm : req.mode = some "direct") :
    (api_start_download s req extract newId now).2.1 = s ∧
    (api_start_download s req extract newId now).2.2 = none ∧
    (∀ tid, (api_start_download s req extract newId now).1 ≠ .taskCreated tid) ∧
    (∀ url, req.url = some url → url ≠ "" → validSourceUrl url = true →
      (api_start_download s req extract newId now).1 = .timedOut ∨
      (api_start_download s req extract newId now).1 = .extractionFailed ∨
      (api_start_download s req extract newId now).1 = .noStream ∨
      ∃ u, (api_start_download s req extract newId now).1 = .directUrl u) := by
  cases hru : req.url with
  | none =>
    have hres : api_start_download s req extract newId now = (.urlRequired, s, none) := by
      simp [api_start_download, hru]
    rw [hres]
    exact ⟨rfl, rfl, fun tid => by simp, fun url h => by simp [hru] at h⟩
  | some url =>
    by_cases hue : url = ""
    · subst hue
      have hres : api_start_download s req extract newId now = (.urlRequired, s, none) := by
        simp [api_start_download, hru]
      rw [hres]
      refine ⟨rfl, rfl, fun tid => by simp, ?_⟩
      intro url' hu' hne' _
      injection hu' with h
      exact absurd h.symm hne'
    · by_cases hv : validSourceUrl url = true
      · have hshape : ∃ r : JobsResponse,
            api_start_download s req extract newId now = (r, s, none) ∧
            (r = .timedOut ∨ r = .extractionFailed ∨ r = .noStream ∨
              ∃ u, r = .directUrl u) := by
          cases extract with
          | timeout =>
            exact ⟨.timedOut, by simp [api_start_download, hru, hue, hv, hm], Or.inl rfl⟩
          | raised d =>
            exact ⟨.extractionFailed, by simp [api_start_download, hru, hue, hv, hm],
              Or.inr (Or.inl rfl)⟩
          | got info =>
            cases hc : _choose_direct_url info with
            | none =>
              exact ⟨.noStream, by simp [api_start_download, hru, hue, hv, hm, hc],
                Or.inr (Or.inr (Or.inl rfl))⟩
            | some u =>
              by_cases hu0 : u = ""
              · subst hu0
                exact ⟨.noStream, by simp [api_start_download, hru, hue, hv, hm, hc],
                  Or.inr (Or.inr (Or.inl rfl))⟩
              · exact ⟨.directUrl u, by simp [api_start_download, hru, hue, hv, hm, hc, hu0],
                  Or.inr (Or.inr (Or.inr ⟨u, rfl⟩))⟩
        obtain ⟨r, hres, hr⟩ := hshape
        rw [hres]
        refine ⟨rfl, rfl, fun tid => ?_, fun _ _ _ _ => hr⟩
        rcases hr with rfl | rfl | rfl | ⟨u, rfl⟩ <;> simp
      · have hres : api_start_download s req extract newId now = (.invalidUrl, s, none) := by
          have hvf : validSourceUrl url = false := by
            revert hv
            cases validSourceUrl url <;> simp
          simp [api_start_download, hru, hue, hvf]
        rw [hres]
        refine ⟨rfl, rfl, fun tid => by simp, ?_⟩
        intro url' hu' _ hv'
        injection hu' with h
        subst h
        exact absurd hv' hv

/-- C8 (witness): a valid direct-mode request that times out leaves the
store untouched, spawns nothing, and yields one of the four results. -/
theorem C8_direct_mode_frame_witness :
    (api_start_download [("old", ⟨"queued", 0, "u", 0, none, none, none, none⟩)]
        ⟨some "https://xhslink.com/abc", some "direct"⟩ .timeout "id9" 3).2.1 =
      [("old", ⟨"queued", 0, "u", 0, none, none, none, none⟩)] ∧
    (api_start_download [("old", ⟨"queued", 0, "u", 0, none, none, none, none⟩)]
        ⟨some "https://xhslink.com/abc", some "direct"⟩ .timeout "id9" 3).2.2 = none ∧
    ((api_start_download [("old", ⟨"queued", 0, "u", 0, none, none, none, none⟩)]
        ⟨some "https://xhslink.com/abc", some "direct"⟩ .timeout "id9" 3).1 = .timedOut ∨
      (api_start_download [("old", ⟨"queued", 0, "u", 0, none, none, none, none⟩)]
        ⟨some "https://xhslink.com/abc", some "direct"⟩ .timeout "id9" 3).1 =
        .extractionFailed ∨
      (api_start_download [("old", ⟨"queued", 0, "u", 0, none, none, none, none⟩)]
        ⟨some "https://xhslink.com/abc", some "direct"⟩ .timeout "id9" 3).1 = .noStream ∨
      ∃ u, (api_start_download [("old", ⟨"queued", 0, "u", 0, none, none, none, none⟩)]
        ⟨some "https://xhslink.com/abc", some "direct"⟩ .timeout "id9" 3).1 = .directUrl u) := by
  have h := C8_direct_mode_frame [("old", ⟨"queued", 0, "u", 0, none, none, none, none⟩)]
    ⟨some "https://xhslink.com/abc", some "direct"⟩ .timeout "id9" 3 rfl
  exact ⟨h.1, h.2.1, h.2.2.2 "https://xhslink.com/abc" rfl (by decide) (by decide)⟩

/-- C9: a valid non-direct submission returns `task_id = newId` (fresh by
hypothesis, as `uuid4` ids are), the store afterwards holds the id with
`status = queued`, `progress = 0`, `created = now`, the spawned worker
references that same id (the record is inserted before the spawn), and
an immediate status read sees `queued`, which is in
`{queued, downloading}`. -/
theorem C9_submit_fresh_task (s : Store) (url : String) (mode : Option String)
    (extract : ExtractInfoResult) (newId : String) (now : Nat)
    (hu : url ≠ "") (hv : validSourceUrl url = true) (hm : mode ≠ some "direct")
    (hfresh : getTask s newId = none) :
    (api_start_download s ⟨some url, mode⟩ extract newId now).1 = .taskCreated newId ∧
    getTask (api_start_download s ⟨some url, mode⟩ extract newId now).2.1 newId =
      some ⟨"queued", 0, url, now, none, none, none, none⟩ ∧
    (api_start_download s ⟨some url, mode⟩ extract newId now).2.2 =
      some ⟨newId, url, outTemplate newId⟩ ∧
    (∃ t, getTask (api_start_download s ⟨some url, mode⟩ extract newId now).2.1 newId =
        some t ∧
      (t.status = "queued" ∨ t.status = "downloading") ∧ t.progress = 0 ∧
      t.created = now ∧ t.url = url) := by
  have hres : api_start_download s ⟨some url, mode⟩ extract newId now =
      (.taskCreated newId, (newId, ⟨"queued", 0, url, now, none, none, none, none⟩) :: s,
        some ⟨newId, url, outTemplate newId⟩) := by
    simp [api_start_download, hu, hv, hm]
  rw [hres]
  refine ⟨rfl, by simp [getTask], rfl, ?_⟩
  exact ⟨⟨"queued", 0, url, now, none, none, none, none⟩, by simp [getTask],
    Or.inl rfl, rfl, rfl, rfl⟩

/-- C9 (witness): a concrete submission against a store already holding
another task. -/
theorem C9_submit_fresh_task_witness :
    (api_start_download [("old", ⟨"completed", 100, "u0", 1, none, none, none, none⟩)]
        ⟨some "http://xhslink.com/v", none⟩ .timeout "fresh-id" 42).1 =
      .taskCreated "fresh-id" ∧
    getTask (api_start_download [("old", ⟨"completed", 100, "u0", 1, none, none, none, none⟩)]
        ⟨some "http://xhslink.com/v", none⟩ .timeout "fresh-id" 42).2.1 "fresh-id" =
      some ⟨"queued", 0, "http://xhslink.com/v", 42, none, none, none, none⟩ ∧
    (api_start_download [("old", ⟨"completed", 100, "u0", 1, none, none, none, none⟩)]
        ⟨some "http://xhslink.com/v", none⟩ .timeout "fresh-id" 42).2.2 =
      some ⟨"fresh-id", "http://xhslink.com/v", outTemplate "fresh-id"⟩ ∧
    (∃ t, getTask (api_start_download
        [("old", ⟨"completed", 100, "u0", 1, none, none, none, none⟩)]
        ⟨some "http://xhslink.com/v", none⟩ .timeout "fresh-id" 42).2.1 "fresh-id" = some t ∧
      (t.status = "queued" ∨ t.status = "downloading") ∧ t.progress = 0 ∧
      t.created = 42 ∧ t.url = "http://xhslink.com/v") := by
  exact C9_submit_fresh_task [("old", ⟨"completed", 100, "u0", 1, none, none, none, none⟩)]
    "http://xhslink.com/v" none .timeout "fresh-id" 42
    (by decide) (by decide) (by decide) (by decide)

/-- C10: the allow-list is a bare substring test: any url containing
`"xiaohongshu.com"` or `"xhslink.com"` anywhere (also on an unrelated
host) passes validation and a non-direct request proceeds to create a
task, while any nonempty url containing neither substring is rejected
with 400. -/
theorem C10_substring_allowlist (url : String) (s : Store) (extract : ExtractInfoResult)
    (newId : String) (now : Nat) :
    (("xiaohongshu.com".toList <:+: url.toList) ∨ ("xhslink.com".toList <:+: url.toList) →
      validSourceUrl url = true ∧
      (api_start_download s ⟨some url, none⟩ extract newId now).1 = .taskCreated newId) ∧
    (url ≠ "" → ¬ ("xiaohongshu.com".toList <:+: url.toList) →
      ¬ ("xhslink.com".toList <:+: url.toList) →
      (api_start_download s ⟨some url, none⟩ extract newId now).1 = .invalidUrl ∧
      JobsResponse.code .invalidUrl = 400) := by
  constructor
  · intro h
    have hv : validSourceUrl url = true := by
      unfold validSourceUrl
      rcases h with h | h
      · simp only [Bool.or_eq_true, decide_eq_true_eq]
        exact Or.inl h
      · simp only [Bool.or_eq_true, decide_eq_true_eq]
        exact Or.inr h
    have hu : url ≠ "" := by
      intro he
      subst he
      rcases h with h | h
      · exact absurd h (by decide)
      · exact absurd h (by decide)
    exact ⟨hv, by simp [api_start_download, hu, hv]⟩
  · intro hu h1 h2
    have hv : validSourceUrl url = false := by
      cases hvb : validSourceUrl url with
      | false => rfl
      | true =>
        unfold validSourceUrl at hvb
        simp only [Bool.or_eq_true, decide_eq_true_eq] at hvb
        rcases hvb with h | h
        · exact absurd h h1
        · exact absurd h h2
    exact ⟨by simp [api_start_download, hu, hv], rfl⟩

/-- C10 (witness): a non-RedNote host smuggling the substring in a query
parameter is accepted; a plain other host is rejected. -/
theorem C10_substring_allowlist_witness :
    (validSourceUrl "https://evil.example/download?src=xiaohongshu.com" = true ∧
      (api_start_download [] ⟨some "https://evil.example/download?src=xiaohongshu.com", none⟩
        .timeout "id2" 0).1 = .taskCreated "id2") ∧
    ((api_start_download [] ⟨some "https://www.youtube.com/watch?v=abc", none⟩
        .timeout "id3" 0).1 = .invalidUrl ∧ JobsResponse.code .invalidUrl = 400) := by
  exact ⟨(C10_substring_allowlist "https://evil.example/download?src=xiaohongshu.com" []
      .timeout "id2" 0).1 (Or.inl (by decide)),
    (C10_substring_allowlist "https://www.youtube.com/watch?v=abc" [] .timeout "id3" 0).2
      (by decide) (by decide) (by decide)⟩

end Rednote
